import Mathlib

/-!
Shallow embedding of the task-lifecycle, quota and storage subsystems of the
cnnvideo-timer service, translated from `src/core/task_manager.py`,
`src/core/quota.py`, `src/storage/manager.py` and `src/api/routes/tasks.py`,
together with theorems settling the specified properties of these components.

Modelling conventions: wall-clock instants are natural numbers (ISO-8601
strings compare chronologically exactly when they compare lexicographically);
calendar dates used for daily-quota resets stay strings, compared for
equality as in the source; Python dicts become association lists that keep
insertion order; the SQLite `tasks` table becomes a list of `Task` records
keyed by `id`; the file system becomes an association list from path to byte
size.  Collaborator calls (downloader, media processor) are injected as
explicit outcome values.
-/

namespace CnnTimer

/-- Task status enumeration (`task_manager.py`, `class TaskStatus`). -/
inductive TaskStatus
  | pending
  | downloading
  | processing
  | completed
  | failed
  | cancelled
  deriving DecidableEq, Repr

/-- Video processing mode (`task_manager.py`, `class ProcessingMode`). -/
inductive ProcessingMode
  | original
  | with_subtitle
  | repeat_twice
  | slow_with_subtitle
  deriving DecidableEq, Repr

/-- Task data model (`task_manager.py`, `@dataclass class Task` / the
`tasks` table schema). -/
structure Task where
  id : String
  user_id : String
  source_id : String
  video_id : String
  video_url : String
  video_title : String
  status : TaskStatus
  processing_mode : ProcessingMode
  progress : Int
  created_at : Nat
  updated_at : Nat
  completed_at : Option Nat := none
  output_file : Option String := none
  subtitle_file : Option String := none
  error_message : Option String := none
  deriving DecidableEq, Repr

/-- `TaskManager.create_task`: fresh PENDING task with progress 0 and both
timestamps set to now. -/
def create_task (id user_id source_id video_id video_url video_title : String)
    (processing_mode : ProcessingMode) (now : Nat) : Task :=
  { id := id, user_id := user_id, source_id := source_id, video_id := video_id
    video_url := video_url, video_title := video_title
    status := TaskStatus.pending, processing_mode := processing_mode
    progress := 0, created_at := now, updated_at := now }

/-- Row-level effect of `TaskManager.update_task`: the dynamically built SQL
`UPDATE ... SET` list.  `updated_at` is always refreshed; each remaining
column is written only when the corresponding argument was provided; when the
new status is COMPLETED, `completed_at` is also stamped with now. -/
def update_task_row (now : Nat) (t : Task) (status : Option TaskStatus)
    (progress : Option Int) (output_file : Option String)
    (subtitle_file : Option String) (error_message : Option String) : Task :=
  let t := { t with updated_at := now }
  let t :=
    match status with
    | some s =>
      let t := { t with status := s }
      if s = TaskStatus.completed then { t with completed_at := some now } else t
    | none => t
  let t := match progress with
    | some p => { t with progress := p }
    | none => t
  let t := match output_file with
    | some f => { t with output_file := some f }
    | none => t
  let t := match subtitle_file with
    | some f => { t with subtitle_file := some f }
    | none => t
  match error_message with
  | some m => { t with error_message := some m }
  | none => t

/-- `TaskManager.get_task`: row lookup by primary key. -/
def get_task (tasks : List Task) (task_id : String) : Option Task :=
  tasks.find? (fun t => t.id == task_id)

/-- `TaskManager.update_task` at the store level: the row whose `id` matches
is rewritten by the SET list; other rows are untouched. -/
def update_task (tasks : List Task) (task_id : String) (now : Nat)
    (status : Option TaskStatus) (progress : Option Int)
    (output_file : Option String) (subtitle_file : Option String)
    (error_message : Option String) : List Task :=
  tasks.map (fun t =>
    if t.id == task_id then
      update_task_row now t status progress output_file subtitle_file error_message
    else t)

/-- Row filter of `TaskManager.cleanup_old_tasks`:
`status IN (completed, failed) AND completed_at < cutoff`.  A NULL
`completed_at` makes the SQL comparison evaluate to NULL, so the row is not
selected. -/
def cleanup_selects (cutoff : Nat) (t : Task) : Bool :=
  (t.status == TaskStatus.completed || t.status == TaskStatus.failed) &&
    (match t.completed_at with
     | some c => c < cutoff
     | none => false)

/-- Terminal statuses of the specified task state machine. -/
def is_terminal (s : TaskStatus) : Bool :=
  s == TaskStatus.completed || s == TaskStatus.failed || s == TaskStatus.cancelled

/-- `TaskManager.get_pending_tasks_count`: number of rows whose status is in
(pending, downloading, processing). -/
def get_pending_tasks_count (tasks : List Task) : Nat :=
  (tasks.filter (fun t =>
    t.status == TaskStatus.pending || t.status == TaskStatus.downloading ||
      t.status == TaskStatus.processing)).length

/-- Tier limits record (`quota.py`, `@dataclass class TierLimits`). -/
structure TierLimits where
  daily_tasks : Int
  max_resolution : String
  allowed_modes : List String
  priority : Int
  ai_subtitle : Bool
  concurrent_tasks : Int
  name : String := ""
  description : String := ""
  price_monthly : String := ""
  price_yearly : String := ""
  deriving DecidableEq, Repr

/-- `DEFAULT_TIER_LIMITS["free"]`. -/
def free_tier : TierLimits :=
  { daily_tasks := 3, max_resolution := "480p"
    allowed_modes := ["original", "with_subtitle"], priority := 1
    ai_subtitle := false, concurrent_tasks := 1, name := "Free"
    description := "Basic access", price_monthly := "Free"
    price_yearly := "Free" }

/-- `DEFAULT_TIER_LIMITS["basic"]`. -/
def basic_tier : TierLimits :=
  { daily_tasks := 15, max_resolution := "720p"
    allowed_modes := ["original", "with_subtitle", "repeat_twice"]
    priority := 5, ai_subtitle := true, concurrent_tasks := 2
    name := "Basic", description := "For regular learners"
    price_monthly := "19", price_yearly := "190" }

/-- `DEFAULT_TIER_LIMITS["premium"]`. -/
def premium_tier : TierLimits :=
  { daily_tasks := -1, max_resolution := "1080p"
    allowed_modes := ["original", "with_subtitle", "repeat_twice", "slow"]
    priority := 10, ai_subtitle := true, concurrent_tasks := 5
    name := "Premium", description := "Unlimited access"
    price_monthly := "49", price_yearly := "490" }

/-- The fallback `DEFAULT_TIER_LIMITS` table of `quota.py`. -/
def DEFAULT_TIER_LIMITS : List (String × TierLimits) :=
  [("free", free_tier), ("basic", basic_tier), ("premium", premium_tier)]

/-- A loaded tier-configuration table (`TierConfigManager._tier_limits`). -/
abbrev TierConfig := List (String × TierLimits)

/-- `TierConfigManager.get_tier_limits`:
`self._tier_limits.get(tier, self._tier_limits.get("free", DEFAULT["free"]))`. -/
def get_tier_limits (cfg : TierConfig) (tier : String) : TierLimits :=
  (cfg.lookup tier).getD ((cfg.lookup "free").getD free_tier)

/-- User usage record (`quota.py`, `@dataclass class UserUsage`). -/
structure UserUsage where
  user_id : String
  tier : String := "free"
  daily_task_count : Int := 0
  last_task_date : String := ""
  total_tasks : Int := 0
  total_bytes_processed : Int := 0
  created_at : String := ""
  updated_at : String := ""
  deriving DecidableEq, Repr

/-- A freshly constructed `UserUsage(user_id=uid)` after `__post_init__`
filled the empty timestamps with now. -/
def default_user_usage (uid now : String) : UserUsage :=
  { user_id := uid, created_at := now, updated_at := now }

/-- Result of a quota check (`quota.py`, `@dataclass QuotaCheckResult`). -/
structure QuotaCheckResult where
  allowed : Bool
  reason : Option String := none
  remaining_today : Int := 0
  tier : String := "free"
  limits : Option TierLimits := none
  deriving DecidableEq, Repr

/-- In-memory state of `QuotaManager` (`self.users` dict, which is the
authoritative copy; the JSON snapshot mirrors it). -/
structure QuotaState where
  users : List (String × UserUsage)
  deriving DecidableEq, Repr

/-- `QuotaManager.get_user`: return the stored record, or create, store and
persist a fresh default record for an unknown user id. -/
def get_user (st : QuotaState) (uid now : String) : UserUsage × QuotaState :=
  match st.users.lookup uid with
  | some u => (u, st)
  | none =>
    let u := default_user_usage uid now
    (u, { users := st.users ++ [(uid, u)] })

/-- In-place mutation of the stored record of `uid` (Python mutates the
object aliased by the dict). -/
def set_user (st : QuotaState) (uid : String) (u : UserUsage) : QuotaState :=
  { users := st.users.map (fun e => if e.1 == uid then (uid, u) else e) }

/-- The fixed resolution ordering of `QuotaManager.check_quota`. -/
def resolution_order : List String := ["360p", "480p", "720p", "1080p"]

/-- `resolution_order.index(fmt) if fmt in resolution_order else 0`. -/
def resolution_index (fmt : String) : Nat :=
  if fmt ∈ resolution_order then resolution_order.indexOf fmt else 0

/-- `QuotaManager.check_quota`.  Side effects: `get_user` may create the
record; the daily counter is reset in place when the stored date differs
from today.  The three denial checks run in order (daily cap, processing
mode, resolution); when all pass the request is allowed and the remaining
quota is reported, with the internal -1 sentinel replaced by 999999. -/
def check_quota (cfg : TierConfig) (st : QuotaState) (uid : String)
    (processing_mode video_format : String) (today now : String) :
    QuotaCheckResult × QuotaState :=
  let p := get_user st uid now
  let user := p.1
  let tier : String :=
    if user.tier ∈ ["free", "basic", "premium"] then user.tier else "free"
  let limits := get_tier_limits cfg user.tier
  let user :=
    if user.last_task_date ≠ today then
      { user with daily_task_count := 0, last_task_date := today }
    else user
  let st := set_user p.2 uid user
  let remaining : Int :=
    if limits.daily_tasks = -1 then -1
    else max 0 (limits.daily_tasks - user.daily_task_count)
  let result : QuotaCheckResult :=
    if limits.daily_tasks ≠ -1 ∧ limits.daily_tasks ≤ user.daily_task_count then
      { allowed := false
        reason := some ("Daily limit reached (" ++ toString limits.daily_tasks
          ++ " tasks/day for " ++ tier ++ " tier). Upgrade to increase limit.")
        remaining_today := 0, tier := tier, limits := some limits }
    else if processing_mode ∉ limits.allowed_modes then
      { allowed := false
        reason := some ("Processing mode " ++ processing_mode
          ++ " not available for " ++ tier
          ++ " tier. Upgrade to access this feature.")
        remaining_today := remaining, tier := tier, limits := some limits }
    else if resolution_index limits.max_resolution < resolution_index video_format then
      { allowed := false
        reason := some ("Resolution " ++ video_format ++ " not available for "
          ++ tier ++ " tier. Max: " ++ limits.max_resolution
          ++ ". Upgrade for higher quality.")
        remaining_today := remaining, tier := tier, limits := some limits }
    else
      { allowed := true
        remaining_today := if remaining ≠ -1 then remaining else 999999
        tier := tier, limits := some limits }
  (result, st)

/-- `QuotaManager.record_task`: reset daily counter on date rollover, then
increment the daily and lifetime counters and persist. -/
def record_task (st : QuotaState) (uid : String) (bytes_processed : Int)
    (today now : String) : UserUsage × QuotaState :=
  let p := get_user st uid now
  let user := p.1
  let user :=
    if user.last_task_date ≠ today then
      { user with daily_task_count := 0, last_task_date := today }
    else user
  let user :=
    { user with
      daily_task_count := user.daily_task_count + 1
      total_tasks := user.total_tasks + 1
      total_bytes_processed := user.total_bytes_processed + bytes_processed
      updated_at := now }
  (user, set_user p.2 uid user)

/-- Display projection returned by `QuotaManager.get_user_stats`.  `none` in
the limit and remaining fields encodes the string "unlimited" used by the
source; the floating-point megabyte projection of `total_bytes_processed` is
not modelled. -/
structure UserStats where
  user_id : String
  tier : String
  daily_tasks_used : Int
  daily_tasks_limit : Option Int
  daily_tasks_remaining : Option Int
  total_tasks : Int
  max_resolution : String
  allowed_modes : List String
  ai_subtitle_enabled : Bool
  member_since : String
  deriving DecidableEq, Repr

/-- `QuotaManager.get_user_stats`: read-style projection; `get_user` may
still create and persist a record for an unknown user id. -/
def get_user_stats (cfg : TierConfig) (st : QuotaState) (uid : String)
    (today now : String) : UserStats × QuotaState :=
  let p := get_user st uid now
  let user := p.1
  let limits := get_tier_limits cfg user.tier
  let daily_count : Int :=
    if user.last_task_date = today then user.daily_task_count else 0
  let stats : UserStats :=
    if limits.daily_tasks = -1 then
      { user_id := uid, tier := user.tier, daily_tasks_used := daily_count
        daily_tasks_limit := none, daily_tasks_remaining := none
        total_tasks := user.total_tasks
        max_resolution := limits.max_resolution
        allowed_modes := limits.allowed_modes
        ai_subtitle_enabled := limits.ai_subtitle
        member_since := user.created_at }
    else
      { user_id := uid, tier := user.tier, daily_tasks_used := daily_count
        daily_tasks_limit := some limits.daily_tasks
        daily_tasks_remaining := some (max 0 (limits.daily_tasks - daily_count))
        total_tasks := user.total_tasks
        max_resolution := limits.max_resolution
        allowed_modes := limits.allowed_modes
        ai_subtitle_enabled := limits.ai_subtitle
        member_since := user.created_at }
  (stats, p.2)

/-- Cached artifact record (`storage/manager.py`, `@dataclass CachedVideo`). -/
structure CachedVideo where
  video_id : String
  source_id : String
  format_id : String
  file_path : String
  file_size : Nat
  created_at : Nat
  last_accessed : Nat
  access_count : Nat
  has_subtitle : Bool
  subtitle_path : Option String := none
  deriving DecidableEq, Repr

/-- `StorageManager.get_cache_key`: the f-string
`source_id _ video_id _ format_id` joined with underscores. -/
def get_cache_key (video_id source_id format_id : String) : String :=
  source_id ++ "_" ++ video_id ++ "_" ++ format_id

/-- State of `StorageManager`: the cache index dict plus the managed file
tree (path to byte size, covering the cache and processed directories). -/
structure StorageState where
  cache_index : List (String × CachedVideo)
  files : List (String × Nat)
  deriving DecidableEq, Repr

/-- `Path(p).exists()` over the managed tree. -/
def fs_exists (files : List (String × Nat)) (path : String) : Bool :=
  (files.lookup path).isSome

/-- `Path(p).stat().st_size` over the managed tree (0 when absent). -/
def fs_stat_size (files : List (String × Nat)) (path : String) : Nat :=
  (files.lookup path).getD 0

/-- `Path(p).unlink()` over the managed tree. -/
def fs_unlink (files : List (String × Nat)) (path : String) :
    List (String × Nat) :=
  files.filter (fun e => e.1 != path)

/-- Total byte count reported by `get_storage_stats` over the managed tree. -/
def total_size (files : List (String × Nat)) : Nat :=
  (files.map (fun e => e.2)).sum

/-- `del self.cache_index[key]`. -/
def erase_key (index : List (String × CachedVideo)) (key : String) :
    List (String × CachedVideo) :=
  index.filter (fun e => e.1 != key)

/-- Mutation of the entry aliased by `self.cache_index[key]`. -/
def set_entry (index : List (String × CachedVideo)) (key : String)
    (c : CachedVideo) : List (String × CachedVideo) :=
  index.map (fun e => if e.1 == key then (key, c) else e)

/-- `StorageManager.get_cached_video`: on a hit whose backing file still
exists, touch the access statistics and return the entry; when the file is
missing, evict the stale entry and miss; unknown keys miss with no state
change. -/
def get_cached_video (st : StorageState) (video_id source_id format_id : String)
    (now : Nat) : Option CachedVideo × StorageState :=
  let key := get_cache_key video_id source_id format_id
  match st.cache_index.lookup key with
  | some cached =>
    if fs_exists st.files cached.file_path then
      let cached :=
        { cached with last_accessed := now, access_count := cached.access_count + 1 }
      (some cached, { st with cache_index := set_entry st.cache_index key cached })
    else
      (none, { st with cache_index := erase_key st.cache_index key })
  | none => (none, st)

/-- `StorageManager.add_to_cache`: build the entry (size taken from the file
when it exists, else 0) and store it under the computed key, overwriting any
existing binding of that key. -/
def add_to_cache (st : StorageState) (video_id source_id format_id : String)
    (file_path : String) (has_subtitle : Bool) (subtitle_path : Option String)
    (now : Nat) : CachedVideo × StorageState :=
  let key := get_cache_key video_id source_id format_id
  let file_size :=
    if fs_exists st.files file_path then fs_stat_size st.files file_path else 0
  let cached : CachedVideo :=
    { video_id := video_id, source_id := source_id, format_id := format_id
      file_path := file_path, file_size := file_size, created_at := now
      last_accessed := now, access_count := 1, has_subtitle := has_subtitle
      subtitle_path := subtitle_path }
  let index :=
    if (st.cache_index.lookup key).isSome then set_entry st.cache_index key cached
    else st.cache_index ++ [(key, cached)]
  (cached, { st with cache_index := index })

/-- Body of the eviction loop of `StorageManager.cleanup_to_quota`: walk the
entries in ascending last-accessed order; stop as soon as the running size is
at or below the target; otherwise unlink the entry's file (when present),
unlink its subtitle, delete the index entry, and continue with the size
decreased by the unlinked file's size. -/
def cleanup_quota_step (target : Nat) :
    List (String × CachedVideo) → StorageState → Nat → Nat → Nat →
      Nat × Nat × StorageState
  | [], st, _, removed, freed => (removed, freed, st)
  | (key, cached) :: rest, st, current, removed, freed =>
    if current ≤ target then (removed, freed, st)
    else if fs_exists st.files cached.file_path then
      let sz := fs_stat_size st.files cached.file_path
      let files := fs_unlink st.files cached.file_path
      let files :=
        match cached.subtitle_path with
        | some sp => if fs_exists files sp then fs_unlink files sp else files
        | none => files
      cleanup_quota_step target rest
        { cache_index := erase_key st.cache_index key, files := files }
        (current - sz) (removed + 1) (freed + sz)
    else
      let files :=
        match cached.subtitle_path with
        | some sp => if fs_exists st.files sp then fs_unlink st.files sp else st.files
        | none => st.files
      cleanup_quota_step target rest
        { cache_index := erase_key st.cache_index key, files := files }
        current removed freed

/-- Sort key of `cleanup_to_quota`: ascending `last_accessed` (the Python
sort on `(datetime, key, cached)` tuples keyed by the datetime). -/
def by_last_accessed (a b : String × CachedVideo) : Bool :=
  decide (a.2.last_accessed ≤ b.2.last_accessed)

/-- `StorageManager.cleanup_to_quota`: no-op while usage is within quota;
otherwise evict entries in ascending `last_accessed` order down to 80% of
quota.  Returns (files removed, bytes freed, final state). -/
def cleanup_to_quota (st : StorageState) (quota_bytes : Nat) :
    Nat × Nat × StorageState :=
  let total := total_size st.files
  if total ≤ quota_bytes then (0, 0, st)
  else
    let target := quota_bytes * 4 / 5
    let sorted := st.cache_index.mergeSort by_last_accessed
    cleanup_quota_step target sorted st total 0 0

/-- Joint state seen by the API route layer: the task store and the quota
ledger. -/
structure SysState where
  tasks : List Task
  quota : QuotaState
  deriving Repr

/-- Outcome of `VideoDownloader.download` (`core/downloader.py` interface as
consumed by the route). -/
structure DownloadResult where
  success : Bool
  file_path : Option String := none
  error : Option String := none
  deriving Repr

/-- Python `a or b` for an optional string: the default replaces both `None`
and the empty string. -/
def or_default (s : Option String) (d : String) : String :=
  match s with
  | some v => if v = "" then d else v
  | none => d

/-- Progress value written by the transform progress callback:
`min(50 + int((cur / total) * 40), 90)` for a positive total. -/
def progress_update_value (cur total : Nat) : Nat :=
  min (50 + cur * 40 / total) 90

/-- The sequence of progress-callback invocations made by the transform
collaborator: each pair (cur, total) with positive total writes a progress
update; a non-positive total writes nothing. -/
def apply_progress_events (tasks : List Task) (task_id : String) (now : Nat)
    (events : List (Nat × Nat)) : List Task :=
  events.foldl (fun ts e =>
    if 0 < e.2 then
      update_task ts task_id now none (some (progress_update_value e.1 e.2))
        none none none
    else ts) tasks

/-- `process_task_background` (`api/routes/tasks.py`): drive one task through
download and processing, with the downloader outcome, the processor outcome
(`Except` models the raised exception) and the processor's progress events
injected.  A missing task id returns immediately. -/
def process_task_background (st : SysState) (task_id : String) (now : Nat)
    (dl : DownloadResult) (proc : Except String String)
    (events : List (Nat × Nat)) : SysState :=
  match get_task st.tasks task_id with
  | none => st
  | some _ =>
    let tasks := update_task st.tasks task_id now (some TaskStatus.downloading)
      (some 10) none none none
    if dl.success = false then
      { st with tasks := (update_task tasks task_id now (some TaskStatus.failed)
          none none none (some (or_default dl.error "Download failed"))) }
    else
      let tasks := update_task tasks task_id now none (some 40) none none none
      let tasks := update_task tasks task_id now (some TaskStatus.processing)
        (some 50) none none none
      let tasks := apply_progress_events tasks task_id now events
      match proc with
      | Except.error e =>
        { st with tasks := (update_task tasks task_id now (some TaskStatus.failed)
            none none none (some e)) }
      | Except.ok processed_path =>
        let tasks := update_task tasks task_id now none (some 95) none none none
        { st with tasks := (update_task tasks task_id now
            (some TaskStatus.completed) (some 100) (some processed_path)
            none none) }

/-- Video metadata returned by `VideoDownloader.get_video_info`. -/
structure VideoInfo where
  id : String
  title : String
  deriving Repr

/-- The `create_task` route (`api/routes/tasks.py`): reject with HTTP 429
when the active-task count reaches twice the concurrency limit, reject with
HTTP 400 when the video info fetch fails, otherwise insert a fresh PENDING
record and return it.  The outcome of `get_video_info` is injected. -/
def create_task_route (st : SysState) (user_id source_id video_url : String)
    (processing_mode : ProcessingMode) (video_info : Option VideoInfo)
    (max_concurrent_tasks : Nat) (now : Nat) (new_id : String) :
    Except Nat (Task × SysState) :=
  let pending_count := get_pending_tasks_count st.tasks
  if max_concurrent_tasks * 2 ≤ pending_count then Except.error 429
  else
    match video_info with
    | none => Except.error 400
    | some info =>
      let task := create_task new_id user_id source_id info.id video_url
        info.title processing_mode now
      Except.ok (task, { st with tasks := st.tasks ++ [task] })

/-! ## Association-list helper lemmas -/

theorem lookup_filter_ne {b : Type} (l : List (String × b)) (k : String) :
    (l.filter (fun e => e.1 != k)).lookup k = none := by
  induction l with
  | nil => rfl
  | cons a t ih =>
    by_cases h : a.1 = k
    · simpa [List.filter_cons, h] using ih
    · have hne : (a.1 != k) = true := bne_iff_ne.mpr h
      rw [List.filter_cons, if_pos hne]
      rw [List.lookup, beq_eq_false_iff_ne.mpr (Ne.symm h)]
      exact ih

theorem lookup_map_set {b : Type} (l : List (String × b)) (k : String) (v : b)
    (h : (l.lookup k).isSome) :
    (l.map (fun e => if e.1 == k then (k, v) else e)).lookup k = some v := by
  induction l with
  | nil => simp [List.lookup] at h
  | cons a t ih =>
    by_cases hk : a.1 = k
    · rw [List.map_cons, if_pos (beq_iff_eq.mpr hk)]
      simp [List.lookup]
    · rw [List.map_cons, if_neg (by simp [hk])]
      rw [List.lookup, beq_eq_false_iff_ne.mpr (Ne.symm hk)]
      rw [List.lookup, beq_eq_false_iff_ne.mpr (Ne.symm hk)] at h
      exact ih h

theorem lookup_append_last {b : Type} (l : List (String × b)) (k : String) (v : b)
    (h : l.lookup k = none) : ((l ++ [(k, v)]).lookup k) = some v := by
  induction l with
  | nil => simp [List.lookup]
  | cons a t ih =>
    by_cases hk : k = a.1
    · rw [List.lookup, beq_iff_eq.mpr hk] at h
      exact absurd h (by simp)
    · rw [List.lookup, beq_eq_false_iff_ne.mpr hk] at h
      rw [List.cons_append, List.lookup, beq_eq_false_iff_ne.mpr hk]
      exact ih h

/-! ## Facts about the task row update -/

theorem update_task_row_eq (now : Nat) (t : Task) (st : Option TaskStatus)
    (pr : Option Int) (o sb e : Option String) :
    update_task_row now t st pr o sb e =
      { t with
        updated_at := now
        status := st.getD t.status
        completed_at :=
          if st = some TaskStatus.completed then some now else t.completed_at
        progress := pr.getD t.progress
        output_file := (o.map some).getD t.output_file
        subtitle_file := (sb.map some).getD t.subtitle_file
        error_message := (e.map some).getD t.error_message } := by
  cases st with
  | none =>
    cases pr <;> cases o <;> cases sb <;> cases e <;> simp [update_task_row]
  | some s =>
    by_cases hs : s = TaskStatus.completed <;>
      cases pr <;> cases o <;> cases sb <;> cases e <;>
      simp [update_task_row, hs]

theorem get_task_update (tasks : List Task) (tid : String) (now : Nat)
    (st : Option TaskStatus) (pr : Option Int) (o sb e : Option String) :
    get_task (update_task tasks tid now st pr o sb e) tid =
      (get_task tasks tid).map (fun t => update_task_row now t st pr o sb e) := by
  induction tasks with
  | nil => rfl
  | cons a t ih =>
    simp only [get_task, update_task, List.map_cons] at ih ⊢
    by_cases h : a.id = tid
    · have hid : (update_task_row now a st pr o sb e).id = a.id := by
        rw [update_task_row_eq]
      rw [if_pos (beq_iff_eq.mpr h)]
      rw [List.find?_cons, List.find?_cons]
      simp [hid, h]
    · rw [if_neg (by simp [h])]
      rw [List.find?_cons, List.find?_cons]
      rw [show (a.id == tid) = false from beq_eq_false_iff_ne.mpr h]
      exact ih

/-! ## C8: progress-only update frame property -/

/-- C8: for every existing task, `update_task` called with only a progress
value changes exactly the progress field and `updated_at`; status, output
file, subtitle file, error message, completed-at and all identity fields are
unchanged, and `updated_at` is refreshed to now. -/
theorem update_progress_only_frame (tasks : List Task) (tid : String)
    (now : Nat) (p : Int) (t : Task) (h : get_task tasks tid = some t) :
    get_task (update_task tasks tid now none (some p) none none none) tid =
      some { t with progress := p, updated_at := now } := by
  rw [get_task_update, h]
  show some (update_task_row now t none (some p) none none none) = _
  rw [update_task_row_eq]
  simp

/-- Witness for C8 at a concrete one-task store. -/
theorem update_progress_only_frame_witness :
    get_task [create_task "t1" "u1" "cnn10" "v1" "https://x" "T"
        ProcessingMode.with_subtitle 0] "t1" =
      some (create_task "t1" "u1" "cnn10" "v1" "https://x" "T"
        ProcessingMode.with_subtitle 0) ∧
    get_task (update_task [create_task "t1" "u1" "cnn10" "v1" "https://x" "T"
        ProcessingMode.with_subtitle 0] "t1" 9 none (some 55) none none none) "t1" =
      some { create_task "t1" "u1" "cnn10" "v1" "https://x" "T"
          ProcessingMode.with_subtitle 0 with progress := 55, updated_at := 9 } :=
  ⟨rfl, update_progress_only_frame _ _ 9 55 _ rfl⟩

/-! ## C4: terminal statuses are not sticky -/

/-- A concrete task that an external actor has driven to CANCELLED. -/
def c4_cancelled_task : Task :=
  { create_task "t1" "u1" "cnn10" "v1" "https://x" "T"
      ProcessingMode.with_subtitle 0 with status := TaskStatus.cancelled }

/-- C4 counterexample: `update_task` on a CANCELLED task with the worker's
next write (status DOWNLOADING, progress 10) moves the task out of the
terminal status, refuting the claim that no operation transitions a task out
of a terminal status. -/
theorem update_task_exits_terminal_cex :
    is_terminal c4_cancelled_task.status = true ∧
    (update_task_row 1 c4_cancelled_task (some TaskStatus.downloading)
        (some 10) none none none).status = TaskStatus.downloading ∧
    is_terminal (update_task_row 1 c4_cancelled_task
        (some TaskStatus.downloading) (some 10) none none none).status = false :=
  ⟨rfl, rfl, rfl⟩

/-- C4 amended: `update_task` applies a provided status unconditionally, with
no check that the task is still in an expected pre-state: the resulting
status equals the provided status whatever the prior status was, so a
terminal task can be moved to any status. -/
theorem update_task_status_unconditional (now : Nat) (t : Task)
    (s : TaskStatus) (pr : Option Int) (o sb e : Option String) :
    (update_task_row now t (some s) pr o sb e).status = s := by
  rw [update_task_row_eq]
  rfl

/-! ## C1: completed_at is stamped only for COMPLETED -/

/-- Concrete system state for the failing-download run: one PENDING task and
an empty quota ledger. -/
def c1_state : SysState :=
  { tasks := [create_task "t1" "u1" "cnn10" "v1" "https://x" "T"
      ProcessingMode.with_subtitle 0]
    quota := { users := [] } }

/-- The background worker run on that task with a download that fails with
a network timeout. -/
def c1_run : SysState :=
  process_task_background c1_state "t1" 5
    { success := false, error := some "network timeout" } (Except.ok "o.mp4") []

/-- C1: a task driven to FAILED through the completion path ends with a NULL
`completed_at` (the update stamps `completed_at` only when the new status is
COMPLETED), so the claimed invariant fails for FAILED — and consequently the
retention sweep's filter `status IN (completed, failed) AND completed_at <
cutoff` never selects such a task. -/
theorem failed_task_lacks_completed_at :
    ∃ t, get_task c1_run.tasks "t1" = some t ∧
      t.status = TaskStatus.failed ∧
      t.error_message = some "network timeout" ∧
      t.completed_at = none ∧
      cleanup_selects 1000000000 t = false :=
  ⟨_, rfl, rfl, rfl, rfl, rfl⟩

/-! ## C3: the completion path never records quota usage -/

/-- C3 amended: the background worker never invokes `record_task` — the quota
ledger component of the state is unchanged by `process_task_background` for
every task and every collaborator outcome.  (The FAILED half of the original
claim therefore holds; the COMPLETED half does not, since counters are not
incremented there either.) -/
theorem process_task_background_preserves_quota (st : SysState)
    (task_id : String) (now : Nat) (dl : DownloadResult)
    (proc : Except String String) (events : List (Nat × Nat)) :
    (process_task_background st task_id now dl proc events).quota = st.quota := by
  unfold process_task_background
  cases get_task st.tasks task_id with
  | none => rfl
  | some t =>
    by_cases h : dl.success = false
    · simp only [h, if_true]
    · simp only [h, if_false]
      cases proc <;> rfl

/-- A free-tier user with no usage recorded. -/
def c3_usage : UserUsage :=
  { user_id := "u1", last_task_date := "2026-10-12"
    created_at := "2026-10-01", updated_at := "2026-10-01" }

/-- Quota ledger holding that user. -/
def c3_quota : QuotaState := { users := [("u1", c3_usage)] }

/-- Concrete system state for a successful run: one PENDING task owned by
that user. -/
def c3_state : SysState :=
  { tasks := [create_task "t1" "u1" "cnn10" "v1" "https://x" "T"
      ProcessingMode.with_subtitle 0]
    quota := c3_quota }

/-- The worker run with a successful download and a successful processing
step. -/
def c3_run : SysState :=
  process_task_background c3_state "t1" 5
    { success := true, file_path := some "tmp.mp4" }
    (Except.ok "t1_processed.mp4") [(1, 2)]

/-- C3 counterexample: the coordinator drives the task to COMPLETED, yet the
owner's daily and lifetime counters are exactly what they were before — the
claim that they are incremented once per completed task is false on the
code. -/
theorem completed_task_does_not_increment_quota_cex :
    ∃ t, get_task c3_run.tasks "t1" = some t ∧
      t.status = TaskStatus.completed ∧ t.progress = 100 ∧
      t.output_file = some "t1_processed.mp4" ∧
      c3_run.quota.users.lookup "u1" = c3_quota.users.lookup "u1" ∧
      (c3_run.quota.users.lookup "u1").map UserUsage.daily_task_count = some 0 ∧
      (c3_run.quota.users.lookup "u1").map UserUsage.total_tasks = some 0 :=
  ⟨_, rfl, rfl, rfl, rfl, rfl, by decide, by decide⟩

/-! ## C2: task creation has no quota gate -/

/-- A free-tier user whose daily cap (3 tasks) is already exhausted today. -/
def c2_usage : UserUsage :=
  { user_id := "u1", daily_task_count := 3, last_task_date := "2026-10-12"
    created_at := "2026-10-01", updated_at := "2026-10-01" }

/-- System state owned by that user: empty task store, exhausted quota. -/
def c2_state : SysState :=
  { tasks := [], quota := { users := [("u1", c2_usage)] } }

/-- C2 counterexample: `check_quota` denies this user (daily cap reached),
yet the create-task route still inserts a PENDING record for the same user
and leaves the quota ledger untouched — no quota check guards creation. -/
theorem task_created_despite_quota_denial_cex :
    (check_quota DEFAULT_TIER_LIMITS c2_state.quota "u1" "with_subtitle"
        "480p" "2026-10-12" "2026-10-12").1.allowed = false ∧
    ∃ task st2,
      create_task_route c2_state "u1" "cnn10" "https://x"
          ProcessingMode.with_subtitle (some { id := "v1", title := "T" })
          3 0 "t1" = Except.ok (task, st2) ∧
        get_task st2.tasks "t1" = some task ∧
        task.status = TaskStatus.pending ∧
        st2.quota = c2_state.quota :=
  ⟨by decide, _, _, rfl, rfl, rfl, rfl⟩

/-- C2 amended: the create-task route consults only the pending-task soft
cap; whenever the video-info fetch succeeds and the active-task count is
below twice the concurrency limit, a PENDING record is created — regardless
of the owner's quota state, which the route neither reads nor writes. -/
theorem create_task_route_no_quota_gate (st : SysState)
    (uid src url : String) (mode : ProcessingMode) (info : VideoInfo)
    (maxC now : Nat) (nid : String)
    (h : get_pending_tasks_count st.tasks < maxC * 2) :
    ∃ task, create_task_route st uid src url mode (some info) maxC now nid =
        Except.ok (task, { st with tasks := st.tasks ++ [task] }) ∧
      task.status = TaskStatus.pending ∧
      ({ st with tasks := st.tasks ++ [task] } : SysState).quota = st.quota := by
  have hroute : create_task_route st uid src url mode (some info) maxC now nid =
      Except.ok (create_task nid uid src info.id url info.title mode now,
        { st with tasks :=
          (st.tasks ++ [create_task nid uid src info.id url info.title mode now]) }) := by
    unfold create_task_route
    rw [if_neg (Nat.not_le.mpr h)]
  exact ⟨_, hroute, rfl, rfl⟩

/-- Witness for the amended C2 at a concrete state below the soft cap. -/
theorem create_task_route_no_quota_gate_witness :
    get_pending_tasks_count c2_state.tasks < 3 * 2 ∧
    ∃ task, create_task_route c2_state "u1" "cnn10" "https://x"
        ProcessingMode.with_subtitle (some { id := "v1", title := "T" })
        3 0 "t1" =
          Except.ok (task, { c2_state with tasks := c2_state.tasks ++ [task] }) ∧
      task.status = TaskStatus.pending ∧
      ({ c2_state with tasks := c2_state.tasks ++ [task] } : SysState).quota =
        c2_state.quota :=
  ⟨by decide, create_task_route_no_quota_gate c2_state "u1" "cnn10" "https://x"
    ProcessingMode.with_subtitle { id := "v1", title := "T" } 3 0 "t1" (by decide)⟩

/-! ## C5: the reported "unlimited" remainder is the numeral 999999 -/

/-- A premium (unlimited daily cap) user with today's date already stored. -/
def c5_premium_usage : UserUsage :=
  { user_id := "p1", tier := "premium", last_task_date := "2026-10-12"
    created_at := "2026-10-01", updated_at := "2026-10-01" }

/-- A capped tier whose daily cap is one million tasks. -/
def c5_big_tier : TierLimits :=
  { free_tier with daily_tasks := 1000000, max_resolution := "720p" }

/-- A loaded tier configuration containing that capped tier. -/
def c5_cfg : TierConfig := [("free", free_tier), ("big", c5_big_tier)]

/-- A user of the capped tier who has used one task today. -/
def c5_capped_usage : UserUsage :=
  { user_id := "c1", tier := "big", daily_task_count := 1
    last_task_date := "2026-10-12", created_at := "2026-10-01"
    updated_at := "2026-10-01" }

/-- C5 counterexample: an allowed check for an unlimited tier reports
`remaining_today = 999999` — not -1 and not a tagged value — and an allowed
check for a capped tier (cap 1000000, one task used) reports the very same
numeral 999999, so the unlimited report is conflated with a numeric
remainder a capped tier can produce. -/
theorem unlimited_remaining_conflated_cex :
    (check_quota DEFAULT_TIER_LIMITS { users := [("p1", c5_premium_usage)] }
        "p1" "with_subtitle" "720p" "2026-10-12" "2026-10-12").1.allowed = true ∧
    (get_tier_limits DEFAULT_TIER_LIMITS "premium").daily_tasks = -1 ∧
    (check_quota DEFAULT_TIER_LIMITS { users := [("p1", c5_premium_usage)] }
        "p1" "with_subtitle" "720p" "2026-10-12" "2026-10-12").1.remaining_today =
      999999 ∧
    (check_quota c5_cfg { users := [("c1", c5_capped_usage)] }
        "c1" "with_subtitle" "720p" "2026-10-12" "2026-10-12").1.allowed = true ∧
    (get_tier_limits c5_cfg "big").daily_tasks = 1000000 ∧
    (check_quota c5_cfg { users := [("c1", c5_capped_usage)] }
        "c1" "with_subtitle" "720p" "2026-10-12" "2026-10-12").1.remaining_today =
      999999 := by
  refine ⟨by decide, by decide, by decide, by decide, by decide, by decide⟩

/-- C5 amended: on the allowed path the unlimited sentinel is replaced by the
fixed numeral 999999 — distinct from zero, but an ordinary `Int` that capped
tiers can also report, not a distinguished sentinel. -/
theorem check_quota_unlimited_allowed_remaining (cfg : TierConfig)
    (st : QuotaState) (uid mode fmt today now : String)
    (hu : (get_tier_limits cfg ((get_user st uid now).1.tier)).daily_tasks = -1)
    (ha : (check_quota cfg st uid mode fmt today now).1.allowed = true) :
    (check_quota cfg st uid mode fmt today now).1.remaining_today = 999999 ∧
    (check_quota cfg st uid mode fmt today now).1.remaining_today ≠ 0 := by
  simp only [check_quota] at ha ⊢
  rw [if_neg (by simp [hu])] at ha ⊢
  by_cases hm : mode ∈ (get_tier_limits cfg (get_user st uid now).1.tier).allowed_modes
  · rw [if_neg (by simp [hm])] at ha ⊢
    by_cases hr : resolution_index
        (get_tier_limits cfg (get_user st uid now).1.tier).max_resolution <
        resolution_index fmt
    · rw [if_pos hr] at ha
      exact absurd ha (by simp)
    · rw [if_neg hr]
      simp [hu]
  · rw [if_pos (by simp [hm])] at ha
    exact absurd ha (by simp)

/-- Witness for the amended C5 at the concrete premium check. -/
theorem check_quota_unlimited_allowed_remaining_witness :
    (get_tier_limits DEFAULT_TIER_LIMITS
        ((get_user { users := [("p1", c5_premium_usage)] } "p1"
          "2026-10-12").1.tier)).daily_tasks = -1 ∧
    (check_quota DEFAULT_TIER_LIMITS { users := [("p1", c5_premium_usage)] }
        "p1" "with_subtitle" "720p" "2026-10-12" "2026-10-12").1.allowed = true ∧
    ((check_quota DEFAULT_TIER_LIMITS { users := [("p1", c5_premium_usage)] }
        "p1" "with_subtitle" "720p" "2026-10-12" "2026-10-12").1.remaining_today =
      999999 ∧
    (check_quota DEFAULT_TIER_LIMITS { users := [("p1", c5_premium_usage)] }
        "p1" "with_subtitle" "720p" "2026-10-12" "2026-10-12").1.remaining_today ≠ 0) :=
  ⟨by decide, by decide,
    check_quota_unlimited_allowed_remaining DEFAULT_TIER_LIMITS
      { users := [("p1", c5_premium_usage)] } "p1" "with_subtitle" "720p"
      "2026-10-12" "2026-10-12" (by decide) (by decide)⟩

/-! ## C10: read-style quota queries create and persist user records -/

/-- C10: for a user id not present in the ledger, both `check_quota` and
`get_user_stats` create and persist a fresh free-tier record with zero
counters as a side effect of the query. -/
theorem read_query_creates_user (cfg : TierConfig) (st : QuotaState)
    (uid mode fmt today now : String) (h : st.users.lookup uid = none) :
    (∃ u, (check_quota cfg st uid mode fmt today now).2.users.lookup uid =
        some u ∧ u.tier = "free" ∧ u.daily_task_count = 0 ∧
        u.total_tasks = 0 ∧ u.total_bytes_processed = 0) ∧
    (get_user_stats cfg st uid today now).2.users.lookup uid =
      some (default_user_usage uid now) := by
  have hg : get_user st uid now =
      (default_user_usage uid now,
        { users := st.users ++ [(uid, default_user_usage uid now)] }) := by
    simp [get_user, h]
  have hlast : (st.users ++ [(uid, default_user_usage uid now)]).lookup uid =
      some (default_user_usage uid now) := lookup_append_last _ _ _ h
  have hstate : (check_quota cfg st uid mode fmt today now).2 =
      set_user (get_user st uid now).2 uid
        (if (get_user st uid now).1.last_task_date ≠ today then
          { (get_user st uid now).1 with
            daily_task_count := 0, last_task_date := today }
        else (get_user st uid now).1) := rfl
  constructor
  · rw [hstate, hg]
    refine ⟨_, lookup_map_set _ _ _ (by simp [hlast]), ?_, ?_, ?_, ?_⟩
    all_goals split <;> rfl
  · show (get_user st uid now).2.users.lookup uid = _
    rw [hg]
    exact hlast

/-- Witness for C10: querying an empty ledger for user "u1". -/
theorem read_query_creates_user_witness :
    (QuotaState.users { users := [] }).lookup "u1" = none ∧
    ((∃ u, (check_quota DEFAULT_TIER_LIMITS { users := [] } "u1"
          "with_subtitle" "480p" "2026-10-12" "2026-10-12").2.users.lookup "u1" =
          some u ∧ u.tier = "free" ∧ u.daily_task_count = 0 ∧
          u.total_tasks = 0 ∧ u.total_bytes_processed = 0) ∧
      (get_user_stats DEFAULT_TIER_LIMITS { users := [] } "u1"
          "2026-10-12" "2026-10-12").2.users.lookup "u1" =
        some (default_user_usage "u1" "2026-10-12")) :=
  ⟨rfl, read_query_creates_user DEFAULT_TIER_LIMITS { users := [] } "u1"
    "with_subtitle" "480p" "2026-10-12" "2026-10-12" rfl⟩

/-! ## C7: cache lookup evicts stale entries and touches genuine hits -/

/-- C7: for a key present in the cache index, `get_cached_video` returns a
miss and removes the index entry when the backing file no longer exists (no
residual entry remains), and on a genuine hit it returns the entry with
`last_accessed` set to now and `access_count` incremented, storing the same
updated entry back in the index. -/
theorem cache_lookup_spec (st : StorageState) (vid src fmt : String)
    (now : Nat) (c : CachedVideo)
    (hc : st.cache_index.lookup (get_cache_key vid src fmt) = some c) :
    (fs_exists st.files c.file_path = false →
      (get_cached_video st vid src fmt now).1 = none ∧
      (get_cached_video st vid src fmt now).2.cache_index.lookup
        (get_cache_key vid src fmt) = none) ∧
    (fs_exists st.files c.file_path = true →
      (get_cached_video st vid src fmt now).1 =
        some { c with last_accessed := now, access_count := c.access_count + 1 } ∧
      (get_cached_video st vid src fmt now).2.cache_index.lookup
        (get_cache_key vid src fmt) =
        some { c with last_accessed := now, access_count := c.access_count + 1 }) := by
  constructor
  · intro hmiss
    constructor
    · simp [get_cached_video, hc, hmiss]
    · simp only [get_cached_video, hc, hmiss, Bool.false_eq_true, if_false]
      exact lookup_filter_ne st.cache_index (get_cache_key vid src fmt)
  · intro hhit
    constructor
    · simp [get_cached_video, hc, hhit]
    · simp only [get_cached_video, hc, hhit, if_true]
      exact lookup_map_set _ _ _ (by simp [hc])

/-- Witness for C7: a two-entry index where the queried entry's file was
deleted out of band (the hit direction is exercised on the other key). -/
theorem cache_lookup_spec_witness :
    (StorageState.cache_index
        { cache_index := [("s_v_720p",
            { video_id := "v", source_id := "s", format_id := "720p"
              file_path := "gone.mp4", file_size := 7, created_at := 0
              last_accessed := 0, access_count := 1, has_subtitle := false })]
          files := [] }).lookup (get_cache_key "v" "s" "720p") =
      some { video_id := "v", source_id := "s", format_id := "720p"
             file_path := "gone.mp4", file_size := 7, created_at := 0
             last_accessed := 0, access_count := 1, has_subtitle := false } ∧
    ((fs_exists ([] : List (String × Nat)) "gone.mp4" = false →
      (get_cached_video
          { cache_index := [("s_v_720p",
              { video_id := "v", source_id := "s", format_id := "720p"
                file_path := "gone.mp4", file_size := 7, created_at := 0
                last_accessed := 0, access_count := 1, has_subtitle := false })]
            files := [] } "v" "s" "720p" 3).1 = none ∧
      (get_cached_video
          { cache_index := [("s_v_720p",
              { video_id := "v", source_id := "s", format_id := "720p"
                file_path := "gone.mp4", file_size := 7, created_at := 0
                last_accessed := 0, access_count := 1, has_subtitle := false })]
            files := [] } "v" "s" "720p" 3).2.cache_index.lookup
        (get_cache_key "v" "s" "720p") = none) ∧
    (fs_exists ([] : List (String × Nat)) "gone.mp4" = true →
      (get_cached_video
          { cache_index := [("s_v_720p",
              { video_id := "v", source_id := "s", format_id := "720p"
                file_path := "gone.mp4", file_size := 7, created_at := 0
                last_accessed := 0, access_count := 1, has_subtitle := false })]
            files := [] } "v" "s" "720p" 3).1 =
        some { video_id := "v", source_id := "s", format_id := "720p"
               file_path := "gone.mp4", file_size := 7, created_at := 0
               last_accessed := 3, access_count := 2, has_subtitle := false } ∧
      (get_cached_video
          { cache_index := [("s_v_720p",
              { video_id := "v", source_id := "s", format_id := "720p"
                file_path := "gone.mp4", file_size := 7, created_at := 0
                last_accessed := 0, access_count := 1, has_subtitle := false })]
            files := [] } "v" "s" "720p" 3).2.cache_index.lookup
        (get_cache_key "v" "s" "720p") =
        some { video_id := "v", source_id := "s", format_id := "720p"
               file_path := "gone.mp4", file_size := 7, created_at := 0
               last_accessed := 3, access_count := 2, has_subtitle := false })) :=
  ⟨rfl, cache_lookup_spec
    { cache_index := [("s_v_720p",
        { video_id := "v", source_id := "s", format_id := "720p"
          file_path := "gone.mp4", file_size := 7, created_at := 0
          last_accessed := 0, access_count := 1, has_subtitle := false })]
      files := [] } "v" "s" "720p" 3
    { video_id := "v", source_id := "s", format_id := "720p"
      file_path := "gone.mp4", file_size := 7, created_at := 0
      last_accessed := 0, access_count := 1, has_subtitle := false } rfl⟩

/-! ## C9: cache-key composition and injectivity -/

theorem string_data_inj {s t : String} (h : s.data = t.data) : s = t := by
  cases s
  cases t
  exact congrArg String.mk h

theorem append_sep_inj (sep : Char) :
    ∀ (a b x y : List Char), sep ∉ a → sep ∉ b →
      a ++ sep :: x = b ++ sep :: y → a = b ∧ x = y := by
  intro a
  induction a with
  | nil =>
    intro b x y _ hb h
    cases b with
    | nil => simpa using h
    | cons d tb =>
      rw [List.nil_append, List.cons_append] at h
      have : sep = d := (List.cons.injEq _ _ _ _ ▸ h).1
      exact absurd (this ▸ List.mem_cons_self d tb) hb
  | cons c ta ih =>
    intro b x y ha hb h
    cases b with
    | nil =>
      rw [List.cons_append, List.nil_append] at h
      have : c = sep := (List.cons.injEq _ _ _ _ ▸ h).1
      exact absurd (this ▸ List.mem_cons_self c ta) ha
    | cons d tb =>
      rw [List.cons_append, List.cons_append] at h
      have hcd : c = d := (List.cons.injEq _ _ _ _ ▸ h).1
      have htl : ta ++ sep :: x = tb ++ sep :: y := (List.cons.injEq _ _ _ _ ▸ h).2
      have ha' : sep ∉ ta := fun hm => ha (List.mem_cons_of_mem c hm)
      have hb' : sep ∉ tb := fun hm => hb (List.mem_cons_of_mem d hm)
      obtain ⟨h1, h2⟩ := ih tb x y ha' hb' htl
      exact ⟨by rw [hcd, h1], h2⟩

/-- C9 counterexample: the key composition joins the components with literal
underscores, and component ids may themselves contain underscores, so two
distinct (source, video, format) triples produce the same key — and
`add_to_cache` for the second triple overwrites the first one's index entry,
leaving a single entry. -/
theorem cache_key_not_injective_cex :
    get_cache_key "b_c" "a" "d" = get_cache_key "c" "a_b" "d" ∧
    (("a", "b_c", "d") ≠ (("a_b" : String), ("c" : String), ("d" : String))) ∧
    ((add_to_cache
        (add_to_cache { cache_index := [], files := [] }
          "b_c" "a" "d" "p1.mp4" false none 0).2
        "c" "a_b" "d" "p2.mp4" false none 1).2.cache_index.length = 1) :=
  ⟨rfl, by decide, rfl⟩

/-- C9 amended: the key composition is injective on (sourceId, videoId,
formatId) provided source ids and video ids contain no underscore (format
ids are unconstrained): under that proviso two distinct triples never share
a key. -/
theorem cache_key_inj_no_underscore (v1 s1 f1 v2 s2 f2 : String)
    (hs1 : ('_' : Char) ∉ s1.data) (hs2 : ('_' : Char) ∉ s2.data)
    (hv1 : ('_' : Char) ∉ v1.data) (hv2 : ('_' : Char) ∉ v2.data)
    (heq : get_cache_key v1 s1 f1 = get_cache_key v2 s2 f2) :
    s1 = s2 ∧ v1 = v2 ∧ f1 = f2 := by
  have hdata := congrArg String.data heq
  simp only [get_cache_key, String.data_append, List.append_assoc,
    List.singleton_append] at hdata
  obtain ⟨hseq, hrest⟩ :=
    append_sep_inj ('_') s1.data s2.data _ _ hs1 hs2 hdata
  obtain ⟨hveq, hfeq⟩ :=
    append_sep_inj ('_') v1.data v2.data _ _ hv1 hv2 hrest
  exact ⟨string_data_inj hseq, string_data_inj hveq, string_data_inj hfeq⟩

/-- Witness for the amended C9 on underscore-free ids. -/
theorem cache_key_inj_no_underscore_witness :
    (('_' : Char) ∉ ("cnn10" : String).data) ∧
    (('_' : Char) ∉ ("abc" : String).data) ∧
    (get_cache_key "abc" "cnn10" "720p" = get_cache_key "abc" "cnn10" "720p") ∧
    ((("cnn10" : String) = "cnn10") ∧ (("abc" : String) = "abc") ∧
      (("720p" : String) = "720p")) :=
  ⟨by decide, by decide, rfl,
    cache_key_inj_no_underscore "abc" "cnn10" "720p" "abc" "cnn10" "720p"
      (by decide) (by decide) (by decide) (by decide) rfl⟩

/-! ## C6: quota cleanup — supporting lemmas -/

theorem mem_map_fst_lookup_isSome {b : Type} (l : List (String × b))
    (k : String) (h : k ∈ l.map (fun e => e.1)) : (l.lookup k).isSome := by
  induction l with
  | nil => simp at h
  | cons a t ih =>
    by_cases hk : k = a.1
    · rw [List.lookup, beq_iff_eq.mpr hk]
      rfl
    · rw [List.lookup, beq_eq_false_iff_ne.mpr hk]
      apply ih
      simpa [hk] using h

theorem map_fst_fs_unlink (fs : List (String × Nat)) (p : String) :
    (fs_unlink fs p).map (fun e => e.1) =
      (fs.map (fun e => e.1)).filter (fun q => q != p) := by
  induction fs with
  | nil => rfl
  | cons a t ih =>
    by_cases h : a.1 = p <;>
      simp [fs_unlink, List.filter_cons, h, ih] at ih ⊢

theorem total_size_fs_unlink (fs : List (String × Nat)) (p : String)
    (hnd : (fs.map (fun e => e.1)).Nodup) (hp : p ∈ fs.map (fun e => e.1)) :
    fs_stat_size fs p ≤ total_size fs ∧
    total_size (fs_unlink fs p) = total_size fs - fs_stat_size fs p := by
  induction fs with
  | nil => simp at hp
  | cons a t ih =>
    rw [List.map_cons, List.nodup_cons] at hnd
    by_cases h : a.1 = p
    · have hpt : p ∉ t.map (fun e => e.1) := h ▸ hnd.1
      have htf : t.filter (fun e => e.1 != p) = t :=
        List.filter_eq_self.mpr fun e he =>
          bne_iff_ne.mpr fun hh => hpt (hh ▸ List.mem_map_of_mem _ he)
      have hstat : fs_stat_size (a :: t) p = a.2 := by
        simp [fs_stat_size, List.lookup, beq_iff_eq.mpr h.symm]
      have hunlink : fs_unlink (a :: t) p = t := by
        simp [fs_unlink, List.filter_cons, h, htf]
      refine ⟨?_, ?_⟩
      · rw [hstat]
        simp [total_size]
      · rw [hstat, hunlink]
        simp [total_size]
    · have hpt : p ∈ t.map (fun e => e.1) := by simpa [Ne.symm h] using hp
      obtain ⟨ih1, ih2⟩ := ih hnd.2 hpt
      have hstat : fs_stat_size (a :: t) p = fs_stat_size t p := by
        simp [fs_stat_size, List.lookup, beq_eq_false_iff_ne.mpr (Ne.symm h)]
      have hunlink : fs_unlink (a :: t) p = a :: fs_unlink t p := by
        simp [fs_unlink, List.filter_cons, bne_iff_ne.mpr h]
      have htot : total_size (a :: t) = a.2 + total_size t := by
        simp [total_size]
      refine ⟨?_, ?_⟩
      · rw [hstat, htot]
        omega
      · rw [hstat, hunlink]
        have htot2 : total_size (a :: fs_unlink t p) =
            a.2 + total_size (fs_unlink t p) := by
          simp [total_size]
        rw [htot2, htot, ih2]
        omega

theorem paths_perm_unlink (fs : List (String × Nat)) (p : String)
    (ps : List String) (hperm : (fs.map (fun e => e.1)).Perm (p :: ps))
    (hnd : (p :: ps).Nodup) :
    ((fs_unlink fs p).map (fun e => e.1)).Perm ps := by
  rw [map_fst_fs_unlink]
  have h1 := hperm.filter (fun q => q != p)
  rw [List.filter_cons] at h1
  simp only [bne_self_eq_false, Bool.false_eq_true, if_false] at h1
  have h2 : ps.filter (fun q => q != p) = ps :=
    List.filter_eq_self.mpr fun q hq =>
      bne_iff_ne.mpr fun hh => (List.nodup_cons.mp hnd).1 (hh ▸ hq)
  rwa [h2] at h1

theorem erase_head_perm {b : Type} (l : List (String × b)) (p : String × b)
    (rest : List (String × b)) (hperm : l.Perm (p :: rest))
    (hnd : ((p :: rest).map (fun e => e.1)).Nodup) :
    (l.filter (fun e => e.1 != p.1)).Perm rest := by
  have h1 := hperm.filter (fun e => e.1 != p.1)
  rw [List.filter_cons] at h1
  simp only [bne_self_eq_false, Bool.false_eq_true, if_false] at h1
  rw [List.map_cons, List.nodup_cons] at hnd
  have h2 : rest.filter (fun e => e.1 != p.1) = rest := by
    refine List.filter_eq_self.mpr fun e he => bne_iff_ne.mpr fun hh => hnd.1 ?_
    rw [← hh]
    exact List.mem_map_of_mem _ he
  rwa [h2] at h1

theorem cleanup_quota_step_spec (target : Nat) :
    ∀ (pending : List (String × CachedVideo)) (st : StorageState)
      (current removed freed : Nat),
      current = total_size st.files →
      (st.files.map (fun e => e.1)).Perm (pending.map (fun e => e.2.file_path)) →
      (pending.map (fun e => e.2.file_path)).Nodup →
      (pending.map (fun e => e.1)).Nodup →
      (∀ e ∈ pending, e.2.subtitle_path = none) →
      st.cache_index.Perm pending →
      ∃ pre suf, pending = pre ++ suf ∧
        (cleanup_quota_step target pending st current removed
          freed).2.2.cache_index.Perm suf ∧
        total_size (cleanup_quota_step target pending st current removed
          freed).2.2.files ≤ target := by
  intro pending
  induction pending with
  | nil =>
    intro st current removed freed hcur hfs _ _ _ hidx
    refine ⟨[], [], rfl, ?_, ?_⟩
    · simpa [cleanup_quota_step] using hidx
    · have h0 : st.files = [] := List.map_eq_nil_iff.mp hfs.eq_nil
      simp [cleanup_quota_step, h0, total_size]
  | cons e rest ih =>
    obtain ⟨key, cached⟩ := e
    intro st current removed freed hcur hfs hpnd hknd hsub hidx
    by_cases hbr : current ≤ target
    · refine ⟨[], (key, cached) :: rest, rfl, ?_, ?_⟩
      · simpa [cleanup_quota_step, hbr] using hidx
      · rw [show cleanup_quota_step target ((key, cached) :: rest) st current
            removed freed = (removed, freed, st) by
          simp [cleanup_quota_step, hbr]]
        rw [← hcur]
        exact hbr
    · have hmem : cached.file_path ∈ st.files.map (fun e => e.1) :=
        hfs.mem_iff.mpr (by simp)
      have hex : fs_exists st.files cached.file_path = true :=
        mem_map_fst_lookup_isSome _ _ hmem
      have hsubhead : cached.subtitle_path = none :=
        hsub (key, cached) (List.mem_cons_self _ _)
      have hfsnd : (st.files.map (fun e => e.1)).Nodup :=
        (hfs.nodup_iff).mpr hpnd
      obtain ⟨hszle, hunl⟩ :=
        total_size_fs_unlink st.files cached.file_path hfsnd hmem
      have hred : cleanup_quota_step target ((key, cached) :: rest) st
          current removed freed =
          cleanup_quota_step target rest
            { cache_index := erase_key st.cache_index key
              files := fs_unlink st.files cached.file_path }
            (current - fs_stat_size st.files cached.file_path) (removed + 1)
            (freed + fs_stat_size st.files cached.file_path) := by
        simp [cleanup_quota_step, hbr, hex, hsubhead]
      have hknd0 := hknd
      rw [List.map_cons] at hfs hpnd hknd
      obtain ⟨pre, suf, hsplit, hperm, hle⟩ := ih
        { cache_index := erase_key st.cache_index key
          files := fs_unlink st.files cached.file_path }
        (current - fs_stat_size st.files cached.file_path) (removed + 1)
        (freed + fs_stat_size st.files cached.file_path)
        (by rw [hunl, ← hcur])
        (paths_perm_unlink st.files cached.file_path _ hfs hpnd)
        hpnd.of_cons
        hknd.of_cons
        (fun x hx => hsub x (List.mem_cons_of_mem _ hx))
        (erase_head_perm st.cache_index (key, cached) rest hidx hknd0)
      exact ⟨(key, cached) :: pre, suf, by rw [List.cons_append, hsplit],
        by rw [hred]; exact hperm, by rw [hred]; exact hle⟩

/-- Concrete cache entry helper for the C6 witness. -/
def c6_entry (v p : String) (sz acc : Nat) : CachedVideo :=
  { video_id := v, source_id := "cnn10", format_id := "720p", file_path := p
    file_size := sz, created_at := 0, last_accessed := acc, access_count := 1
    has_subtitle := false }

/-- A store at 120% of a 1000-byte quota: files of 500, 400 and 300 bytes
last accessed at times 1, 2 and 3. -/
def c6_store : StorageState :=
  { cache_index :=
      [("cnn10_v1_720p", c6_entry "v1" "f1.mp4" 500 1),
       ("cnn10_v2_720p", c6_entry "v2" "f2.mp4" 400 2),
       ("cnn10_v3_720p", c6_entry "v3" "f3.mp4" 300 3)]
    files := [("f1.mp4", 500), ("f2.mp4", 400), ("f3.mp4", 300)] }

/-- C6: `cleanup_to_quota` on a consistent store (distinct keys, distinct
backing files that exactly make up the managed tree, no subtitle files) is a
no-op when usage is at or below quota; otherwise it deletes index entries in
ascending last-accessed order until usage is at most 80% of quota, and every
removed entry was last accessed no later than every retained entry. -/
theorem cleanup_to_quota_spec (st : StorageState) (quota_bytes : Nat)
    (hkeys : (st.cache_index.map (fun e => e.1)).Nodup)
    (hpaths : (st.cache_index.map (fun e => e.2.file_path)).Nodup)
    (hfs : (st.files.map (fun e => e.1)).Perm
      (st.cache_index.map (fun e => e.2.file_path)))
    (hsub : ∀ e ∈ st.cache_index, e.2.subtitle_path = none) :
    (total_size st.files ≤ quota_bytes →
      cleanup_to_quota st quota_bytes = (0, 0, st)) ∧
    (quota_bytes < total_size st.files →
      total_size (cleanup_to_quota st quota_bytes).2.2.files ≤
        quota_bytes * 4 / 5 ∧
      (∀ e ∈ st.cache_index,
        e ∉ (cleanup_to_quota st quota_bytes).2.2.cache_index →
        ∀ e2 ∈ (cleanup_to_quota st quota_bytes).2.2.cache_index,
          e.2.last_accessed ≤ e2.2.last_accessed)) := by
  constructor
  · intro h
    simp [cleanup_to_quota, h]
  · intro h
    have hnle : ¬ total_size st.files ≤ quota_bytes := Nat.not_le.mpr h
    have hred : cleanup_to_quota st quota_bytes =
        cleanup_quota_step (quota_bytes * 4 / 5)
          (st.cache_index.mergeSort by_last_accessed) st
          (total_size st.files) 0 0 := by
      simp [cleanup_to_quota, hnle]
    have hsortperm : (st.cache_index.mergeSort by_last_accessed).Perm
        st.cache_index := List.mergeSort_perm _ _
    have hfs2 : (st.files.map (fun e => e.1)).Perm
        ((st.cache_index.mergeSort by_last_accessed).map
          (fun e => e.2.file_path)) :=
      hfs.trans (hsortperm.map _).symm
    have hpnd2 : ((st.cache_index.mergeSort by_last_accessed).map
        (fun e => e.2.file_path)).Nodup :=
      ((hsortperm.map _).nodup_iff).mpr hpaths
    have hknd2 : ((st.cache_index.mergeSort by_last_accessed).map
        (fun e => e.1)).Nodup :=
      ((hsortperm.map _).nodup_iff).mpr hkeys
    have hsub2 : ∀ e ∈ st.cache_index.mergeSort by_last_accessed,
        e.2.subtitle_path = none :=
      fun e he => hsub e (hsortperm.mem_iff.mp he)
    obtain ⟨pre, suf, hsplit, hperm, hle⟩ :=
      cleanup_quota_step_spec (quota_bytes * 4 / 5)
        (st.cache_index.mergeSort by_last_accessed) st
        (total_size st.files) 0 0 rfl hfs2 hpnd2 hknd2 hsub2 hsortperm.symm
    have hsorted : (st.cache_index.mergeSort by_last_accessed).Pairwise
        (fun a b => by_last_accessed a b = true) :=
      List.sorted_mergeSort
        (by
          intro a b c hab hbc
          simp only [by_last_accessed, decide_eq_true_eq] at hab hbc ⊢
          omega)
        (by
          intro a b
          simp only [by_last_accessed, Bool.or_eq_true, decide_eq_true_eq]
          omega)
        st.cache_index
    rw [hred]
    refine ⟨hle, ?_⟩
    intro e he hnotin e2 he2
    have hesorted : e ∈ st.cache_index.mergeSort by_last_accessed :=
      hsortperm.mem_iff.mpr he
    have hepre : e ∈ pre := by
      rw [hsplit] at hesorted
      rcases List.mem_append.mp hesorted with h1 | h2
      · exact h1
      · exact absurd (hperm.mem_iff.mpr h2) hnotin
    have he2suf : e2 ∈ suf := hperm.mem_iff.mp he2
    rw [hsplit] at hsorted
    have hpw := (List.pairwise_append.mp hsorted).2.2 e hepre e2 he2suf
    simpa [by_last_accessed] using hpw

/-- Witness for C6: a 1000-byte-quota store at 1200 bytes with three files
accessed at times 1, 2, 3; cleanup removes only the oldest (500-byte) file,
reaching 700 ≤ 800 bytes. -/
theorem cleanup_to_quota_spec_witness :
    ((c6_store.cache_index.map (fun e => e.1)).Nodup ∧
     (c6_store.cache_index.map (fun e => e.2.file_path)).Nodup ∧
     (c6_store.files.map (fun e => e.1)).Perm
       (c6_store.cache_index.map (fun e => e.2.file_path)) ∧
     (∀ e ∈ c6_store.cache_index, e.2.subtitle_path = none)) ∧
    ((total_size c6_store.files ≤ 1000 →
        cleanup_to_quota c6_store 1000 = (0, 0, c6_store)) ∧
      (1000 < total_size c6_store.files →
        total_size (cleanup_to_quota c6_store 1000).2.2.files ≤
          1000 * 4 / 5 ∧
        (∀ e ∈ c6_store.cache_index,
          e ∉ (cleanup_to_quota c6_store 1000).2.2.cache_index →
          ∀ e2 ∈ (cleanup_to_quota c6_store 1000).2.2.cache_index,
            e.2.last_accessed ≤ e2.2.last_accessed))) :=
  ⟨⟨by decide, by decide, by decide, by decide⟩,
    cleanup_to_quota_spec c6_store 1000 (by decide) (by decide) (by decide)
      (by decide)⟩

end CnnTimer
